import Mathlib

/-!
Verification of the Reward Ledger Engine specification against the source.

The development shallowly embeds the components the claims concern:

* `LedgerDatabase` — the transactional command executor
  (`LedgerDatabase::RunTransaction` and its per-command helpers from
  `ledger_database.cc`).  External SQL behaviour (statement success,
  transaction begin/commit success, database open success) is supplied by
  oracles in `RunEnv` and per-command fields; the durable database state
  (`SqlData`) is the part reverted by a rollback.
* `StateMigrationV10` — the v10 state migration (`state_migration_v10.cc`),
  with the JSON reader, base64 decoding and decryption as oracles.
* `Uphold.WalletAuthorization` — the custodian wallet authorization flow
  (implementation not in the source tree; modelled from the spec).
* `RefillUnblindedTokens.MaybeRefill` — the token-refill entry point
  (implementation not in the source tree; modelled from the spec).
-/

/-- Response statuses of `mojom::DBCommandResponse::Status`. -/
inductive DBStatus
  | RESPONSE_OK
  | INITIALIZATION_ERROR
  | TRANSACTION_ERROR
  | COMMAND_ERROR
deriving DecidableEq, Repr

/-- Command types of `mojom::DBCommand::Type`. -/
inductive DBCommandType
  | INITIALIZE
  | READ
  | EXECUTE
  | RUN
  | MIGRATE
  | VACUUM
  | CLOSE
deriving DecidableEq, Repr

/-- Scalar values of `mojom::DBValue` (the double tag carries its raw bits,
since the claims never inspect floating-point contents). -/
inductive DBValue
  | STRING_VALUE (s : String)
  | INT_VALUE (i : Int)
  | INT64_VALUE (i : Int)
  | DOUBLE_VALUE (bits : Nat)
  | BOOL_VALUE (b : Bool)
  | NULL_VALUE
deriving DecidableEq, Repr

/-- A row materialized by `CreateRecord`. -/
abbrev DBRecord := List DBValue

/-- The single result slot of `mojom::DBCommandResponse` (either a scalar
value, as written by `Initialize`, or a record list, as written by `Read`). -/
inductive DBResult
  | value (v : Int)
  | records (rs : List DBRecord)
deriving DecidableEq, Repr

/-- One `mojom::DBCommand`.  The behaviour of the external SQL engine on this
command is an oracle: `ok` is whether the underlying statement succeeds
(`sql::Database::Execute` / `sql::Statement::Run`), `effect` is the
statement's effect on the database content when it runs, and `records` are
the rows the statement steps through for a `READ`. -/
structure DBCommand where
  type : DBCommandType
  ok : Bool := true
  effect : List String → List String := id
  records : List DBRecord := []

/-- One `mojom::DBTransaction`. -/
structure DBTransaction where
  version : Int
  compatibleVersion : Int
  commands : List DBCommand

/-- The durable state of the embedded SQL database: abstract content plus the
`sql::MetaTable` bookkeeping.  This is exactly the part restored by
`sql::Transaction::Rollback`. -/
structure SqlData where
  content : List String
  metaExists : Bool
  metaVersion : Int
  metaCompatibleVersion : Int
deriving DecidableEq, Repr

/-- The state of a `LedgerDatabase`: the connection (`db_.is_open()`), the
durable data, and the in-memory `initialized_` flag. -/
structure LedgerDatabase where
  isOpen : Bool
  data : SqlData
  initialized : Bool
deriving DecidableEq, Repr

/-- External success oracles for one `RunTransaction` call: whether
`db_.Open`, `sql::Transaction::Begin`, `sql::MetaTable::Init`,
`sql::Transaction::Commit` and the deferred `VACUUM` statement succeed. -/
structure RunEnv where
  openOk : Bool
  beginOk : Bool
  metaInitOk : Bool
  commitOk : Bool
  vacuumOk : Bool
deriving DecidableEq, Repr

/-- The outcome of `RunTransaction`: the response status, the store state
after the call, the response result slot, and how many times the deferred
`VACUUM` statement was executed. -/
structure RunOutcome where
  status : DBStatus
  state : LedgerDatabase
  result : Option DBResult
  vacuumRuns : Nat
deriving DecidableEq, Repr

namespace LedgerDatabase

/-- `LedgerDatabase::Initialize`: on the first successful call, initializes
the meta table (creating it with the transaction's versions when absent) and
sets `initialized_`; reports the pre-existing schema version (0 when the meta
table was newly created) in the response result slot. -/
def InitializeDB (env : RunEnv) (version compatibleVersion : Int)
    (st : LedgerDatabase) (res : Option DBResult) :
    DBStatus × LedgerDatabase × Option DBResult :=
  if st.initialized then
    (.RESPONSE_OK, st, some (.value st.data.metaVersion))
  else
    if env.metaInitOk then
      if st.data.metaExists then
        (.RESPONSE_OK, { st with initialized := true },
          some (.value st.data.metaVersion))
      else
        (.RESPONSE_OK,
          { st with
            data := { st.data with
              metaExists := true
              metaVersion := version
              metaCompatibleVersion := compatibleVersion }
            initialized := true },
          some (.value 0))
    else
      (.INITIALIZATION_ERROR, st, res)

/-- `LedgerDatabase::Execute`: fails with `INITIALIZATION_ERROR` before
initialization; otherwise runs the statement, returning `COMMAND_ERROR` when
the statement fails. -/
def ExecuteDB (c : DBCommand) (st : LedgerDatabase) (res : Option DBResult) :
    DBStatus × LedgerDatabase × Option DBResult :=
  if st.initialized then
    if c.ok then
      (.RESPONSE_OK, { st with data := { st.data with content := c.effect st.data.content } }, res)
    else
      (.COMMAND_ERROR, st, res)
  else
    (.INITIALIZATION_ERROR, st, res)

/-- `LedgerDatabase::Run`: binds parameters and runs the statement; same
status behaviour as `ExecuteDB`. -/
def RunDB (c : DBCommand) (st : LedgerDatabase) (res : Option DBResult) :
    DBStatus × LedgerDatabase × Option DBResult :=
  if st.initialized then
    if c.ok then
      (.RESPONSE_OK, { st with data := { st.data with content := c.effect st.data.content } }, res)
    else
      (.COMMAND_ERROR, st, res)
  else
    (.INITIALIZATION_ERROR, st, res)

/-- `LedgerDatabase::Read`: fails with `INITIALIZATION_ERROR` before
initialization; otherwise steps the statement, materializing its rows into
the response result slot, and always reports `RESPONSE_OK`. -/
def ReadDB (c : DBCommand) (st : LedgerDatabase) (res : Option DBResult) :
    DBStatus × LedgerDatabase × Option DBResult :=
  if st.initialized then
    (.RESPONSE_OK, st, some (.records c.records))
  else
    (.INITIALIZATION_ERROR, st, res)

/-- `LedgerDatabase::Migrate`: fails with `INITIALIZATION_ERROR` before
initialization; otherwise unconditionally stores the transaction's version
and compatible version in the meta table. -/
def MigrateDB (version compatibleVersion : Int) (st : LedgerDatabase)
    (res : Option DBResult) : DBStatus × LedgerDatabase × Option DBResult :=
  if st.initialized then
    (.RESPONSE_OK,
      { st with data := { st.data with
          metaVersion := version
          metaCompatibleVersion := compatibleVersion } },
      res)
  else
    (.INITIALIZATION_ERROR, st, res)

/-- One iteration of the command loop of `RunTransaction`: dispatches on the
command type; the final component records whether this command requested a
vacuum.  A `CLOSE` reached here is the `NOTREACHED()` branch and evaluates to
`COMMAND_ERROR`. -/
def applyCommand (env : RunEnv) (version compatibleVersion : Int)
    (c : DBCommand) (st : LedgerDatabase) (res : Option DBResult) :
    DBStatus × LedgerDatabase × Option DBResult × Bool :=
  match c.type with
  | .INITIALIZE =>
      let p := InitializeDB env version compatibleVersion st res
      (p.1, p.2.1, p.2.2, false)
  | .READ =>
      let p := ReadDB c st res
      (p.1, p.2.1, p.2.2, false)
  | .EXECUTE =>
      let p := ExecuteDB c st res
      (p.1, p.2.1, p.2.2, false)
  | .RUN =>
      let p := RunDB c st res
      (p.1, p.2.1, p.2.2, false)
  | .MIGRATE =>
      let p := MigrateDB version compatibleVersion st res
      (p.1, p.2.1, p.2.2, false)
  | .VACUUM => (.RESPONSE_OK, st, res, true)
  | .CLOSE => (.COMMAND_ERROR, st, res, false)

/-- The command loop of `RunTransaction`: executes commands in order,
returning at the first command whose status is not `RESPONSE_OK`, and
accumulating the vacuum-requested flag. -/
def runCommands (env : RunEnv) (version compatibleVersion : Int) :
    List DBCommand → LedgerDatabase → Option DBResult → Bool →
    DBStatus × LedgerDatabase × Option DBResult × Bool
  | [], st, res, vac => (.RESPONSE_OK, st, res, vac)
  | c :: cs, st, res, vac =>
      let p := applyCommand env version compatibleVersion c st res
      if p.1 = .RESPONSE_OK then
        runCommands env version compatibleVersion cs p.2.1 p.2.2.1 (vac || p.2.2.2)
      else
        (p.1, p.2.1, p.2.2.1, vac || p.2.2.2)

/-- Whether the transaction is a sole `CLOSE` command (the special case at
the top of `RunTransaction`). -/
def soleClose (t : DBTransaction) : Bool :=
  match t.commands with
  | [c] => c.type == .CLOSE
  | _ => false

/-- `LedgerDatabase::CloseDatabase`: closes the connection and resets the
`initialized_` flag; durable data persists on disk. -/
def CloseDatabase (st : LedgerDatabase) : LedgerDatabase :=
  { st with isOpen := false, initialized := false }

/-- `LedgerDatabase::RunTransaction`: opens the database if needed, handles a
sole-`CLOSE` transaction specially, begins a SQL transaction, runs the
command loop, rolls back on any command failure (restoring the durable data
to its pre-transaction snapshot), commits otherwise, and finally executes a
deferred `VACUUM` exactly once when one was requested (its failure is only
logged). -/
def RunTransaction (env : RunEnv) (st : LedgerDatabase) (t : DBTransaction) :
    RunOutcome :=
  if !st.isOpen && !env.openOk then
    ⟨.INITIALIZATION_ERROR, st, none, 0⟩
  else
    let st0 := { st with isOpen := true }
    if soleClose t then
      ⟨.RESPONSE_OK, CloseDatabase st0, none, 0⟩
    else if !env.beginOk then
      ⟨.TRANSACTION_ERROR, st0, none, 0⟩
    else
      let snapshot := st0.data
      let r := runCommands env t.version t.compatibleVersion t.commands st0 none false
      if r.1 = .RESPONSE_OK then
        if env.commitOk then
          ⟨.RESPONSE_OK, r.2.1, r.2.2.1, if r.2.2.2 then 1 else 0⟩
        else
          ⟨.TRANSACTION_ERROR, { r.2.1 with data := snapshot }, r.2.2.1, 0⟩
      else
        ⟨r.1, { r.2.1 with data := snapshot }, r.2.2.1, 0⟩

end LedgerDatabase

namespace LedgerDatabase

theorem set_open_self (st : LedgerDatabase) (h : st.isOpen = true) :
    { st with isOpen := true } = st := by
  cases st
  simp_all

theorem applyCommand_isOpen (env : RunEnv) (v cv : Int) (c : DBCommand)
    (st : LedgerDatabase) (res : Option DBResult) :
    (applyCommand env v cv c st res).2.1.isOpen = st.isOpen := by
  obtain ⟨ty, ok, eff, recs⟩ := c
  cases ty <;>
    simp only [applyCommand, InitializeDB, ReadDB, ExecuteDB, RunDB, MigrateDB] <;>
    first
    | rfl
    | (split_ifs <;> rfl)

theorem applyCommand_initialized_mono (env : RunEnv) (v cv : Int)
    (c : DBCommand) (st : LedgerDatabase) (res : Option DBResult)
    (h : st.initialized = true) :
    (applyCommand env v cv c st res).2.1.initialized = true := by
  obtain ⟨ty, ok, eff, recs⟩ := c
  cases ty <;>
    simp only [applyCommand, InitializeDB, ReadDB, ExecuteDB, RunDB, MigrateDB] <;>
    first
    | exact h
    | (split_ifs <;> simp_all)

theorem applyCommand_vacuumFlag (env : RunEnv) (v cv : Int) (c : DBCommand)
    (st : LedgerDatabase) (res : Option DBResult) :
    (applyCommand env v cv c st res).2.2.2 = (c.type == .VACUUM) := by
  obtain ⟨ty, ok, eff, recs⟩ := c
  cases ty <;> rfl

theorem runCommands_isOpen (env : RunEnv) (v cv : Int) (cmds : List DBCommand)
    (st : LedgerDatabase) (res : Option DBResult) (vac : Bool) :
    (runCommands env v cv cmds st res vac).2.1.isOpen = st.isOpen := by
  induction cmds generalizing st res vac with
  | nil => rfl
  | cons c cs ih =>
      simp only [runCommands]
      split
      · rw [ih]
        exact applyCommand_isOpen env v cv c st res
      · exact applyCommand_isOpen env v cv c st res

theorem runCommands_initialized_mono (env : RunEnv) (v cv : Int)
    (cmds : List DBCommand) (st : LedgerDatabase) (res : Option DBResult)
    (vac : Bool) (h : st.initialized = true) :
    (runCommands env v cv cmds st res vac).2.1.initialized = true := by
  induction cmds generalizing st res vac with
  | nil => exact h
  | cons c cs ih =>
      simp only [runCommands]
      split
      · exact ih _ _ _ (applyCommand_initialized_mono env v cv c st res h)
      · exact applyCommand_initialized_mono env v cv c st res h

theorem applyCommand_vacuumOk_irrel (env : RunEnv) (b : Bool) (v cv : Int)
    (c : DBCommand) (st : LedgerDatabase) (res : Option DBResult) :
    applyCommand { env with vacuumOk := b } v cv c st res =
      applyCommand env v cv c st res := by
  obtain ⟨ty, ok, eff, recs⟩ := c
  cases ty <;> rfl

theorem runCommands_vacuumOk_irrel (env : RunEnv) (b : Bool) (v cv : Int)
    (cmds : List DBCommand) (st : LedgerDatabase) (res : Option DBResult)
    (vac : Bool) :
    runCommands { env with vacuumOk := b } v cv cmds st res vac =
      runCommands env v cv cmds st res vac := by
  induction cmds generalizing st res vac with
  | nil => rfl
  | cons c cs ih =>
      simp only [runCommands, applyCommand_vacuumOk_irrel]
      split
      · rw [ih]
      · rfl

theorem applyCommand_close (env : RunEnv) (v cv : Int) (c : DBCommand)
    (st : LedgerDatabase) (res : Option DBResult) (hc : c.type = .CLOSE) :
    applyCommand env v cv c st res = (.COMMAND_ERROR, st, res, false) := by
  obtain ⟨ty, ok, eff, recs⟩ := c
  cases hc
  rfl

theorem runTransaction_loop (env : RunEnv) (st : LedgerDatabase)
    (t : DBTransaction) (hopen : st.isOpen = true)
    (hsole : soleClose t = false) (hb : env.beginOk = true) :
    RunTransaction env st t =
      (if (runCommands env t.version t.compatibleVersion t.commands st none false).1
          = .RESPONSE_OK then
        if env.commitOk then
          ⟨.RESPONSE_OK,
           (runCommands env t.version t.compatibleVersion t.commands st none false).2.1,
           (runCommands env t.version t.compatibleVersion t.commands st none false).2.2.1,
           if (runCommands env t.version t.compatibleVersion t.commands st none false).2.2.2
             then 1 else 0⟩
        else
          ⟨.TRANSACTION_ERROR,
           { (runCommands env t.version t.compatibleVersion t.commands st none false).2.1
               with data := st.data },
           (runCommands env t.version t.compatibleVersion t.commands st none false).2.2.1,
           0⟩
      else
        ⟨(runCommands env t.version t.compatibleVersion t.commands st none false).1,
         { (runCommands env t.version t.compatibleVersion t.commands st none false).2.1
             with data := st.data },
         (runCommands env t.version t.compatibleVersion t.commands st none false).2.2.1,
         0⟩) := by
  rw [RunTransaction]
  rw [set_open_self st hopen]
  simp [hopen, hsole, hb]

theorem runCommands_append (env : RunEnv) (v cv : Int)
    (l1 l2 : List DBCommand) (st : LedgerDatabase) (res : Option DBResult)
    (vac : Bool) :
    runCommands env v cv (l1 ++ l2) st res vac =
      (if (runCommands env v cv l1 st res vac).1 = .RESPONSE_OK then
        runCommands env v cv l2 (runCommands env v cv l1 st res vac).2.1
          (runCommands env v cv l1 st res vac).2.2.1
          (runCommands env v cv l1 st res vac).2.2.2
      else runCommands env v cv l1 st res vac) := by
  induction l1 generalizing st res vac with
  | nil => simp [runCommands]
  | cons c cs ih =>
      simp only [List.cons_append, runCommands]
      split
      · exact ih _ _ _
      · simp

theorem runCommands_vacuum_flag (env : RunEnv) (v cv : Int)
    (cmds : List DBCommand) (st : LedgerDatabase) (res : Option DBResult)
    (vac : Bool) (h : (runCommands env v cv cmds st res vac).1 = .RESPONSE_OK) :
    (runCommands env v cv cmds st res vac).2.2.2 =
      (vac || cmds.any fun c => c.type == .VACUUM) := by
  induction cmds generalizing st res vac with
  | nil => simp [runCommands]
  | cons c cs ih =>
      simp only [runCommands] at h ⊢
      split at h
      case isTrue hp =>
        rw [if_pos hp, ih _ _ _ h, List.any_cons, applyCommand_vacuumFlag,
          Bool.or_assoc]
      case isFalse hp => exact absurd h hp

end LedgerDatabase

/-- Result codes of `ledger::type::Result` used by the claims. -/
inductive LedgerResult
  | LEDGER_OK
  | LEDGER_ERROR
  | NOT_FOUND
deriving DecidableEq, Repr

/-- A JSON value as observed through `base::JSONReader` plus the two lookups
the source performs: whether the root is a dictionary, and `FindStringKey`
(entries carry `some s` for string-valued keys, `none` for keys holding a
value of any other type). -/
inductive JsonValue
  | dict (entries : List (String × Option String))
  | nondict
deriving Repr

namespace JsonValue

def isDict : JsonValue → Bool
  | .dict _ => true
  | .nondict => false

def findEntry : List (String × Option String) → String → Option (Option String)
  | [], _ => none
  | (k, v) :: rest, key => if k = key then some v else findEntry rest key

/-- `base::Value::FindStringKey`. -/
def findStringKey (j : JsonValue) (key : String) : Option String :=
  match j with
  | .nondict => none
  | .dict es =>
      match findEntry es key with
      | some (some s) => some s
      | _ => none

end JsonValue

/-- `mojom::RewardsWallet`: the root local identity. -/
structure RewardsWallet where
  paymentId : String
  recoverySeed : String
deriving DecidableEq, Repr

namespace StateMigrationV10

/-- The external collaborators of `StateMigrationV10::Migrate`: the legacy
preference value, the JSON reader, base64 decoding, the user-encryption
decryption step, and the result of the `RewardsWalletStore::SaveNew` write. -/
structure MigrationEnv where
  prefData : String
  readJson : String → Option JsonValue
  base64Decode : String → Option String
  decrypt : String → Option String
  saveSuccess : Bool

/-- The observable outcome of `StateMigrationV10::Migrate`: the result passed
to the callback and the `(payment_id, recovery_seed)` pair handed to
`RewardsWalletStore::SaveNew`, when the flow reached the write. -/
structure MigrationOutcome where
  result : LedgerResult
  savedWallet : Option RewardsWallet
deriving Repr

/-- `ParseWalletJSON` from `state_migration_v10.cc`: parses the decrypted
JSON, requiring a dictionary with string keys `payment_id` and
`recovery_seed`, the latter base64-decoded. -/
def ParseWalletJSON (readJson : String → Option JsonValue)
    (base64Decode : String → Option String) (data : String) :
    Option RewardsWallet :=
  match readJson data with
  | none => none
  | some root =>
      if root.isDict then
        match root.findStringKey "payment_id" with
        | none => none
        | some paymentId =>
            match root.findStringKey "recovery_seed" with
            | none => none
            | some seed =>
                match base64Decode seed with
                | none => none
                | some decodedSeed => some ⟨paymentId, decodedSeed⟩
      else none

/-- `StateMigrationV10::Migrate`: reads the legacy preference; succeeds
trivially when empty; on decryption or parse failure logs and still resolves
`LEDGER_OK`; on success hands the pair to the wallet store and resolves
`LEDGER_OK` from the save callback regardless of the write's success. -/
def Migrate (env : MigrationEnv) : MigrationOutcome :=
  if env.prefData = "" then ⟨.LEDGER_OK, none⟩
  else
    match env.decrypt env.prefData with
    | none => ⟨.LEDGER_OK, none⟩
    | some json =>
        match ParseWalletJSON env.readJson env.base64Decode json with
        | none => ⟨.LEDGER_OK, none⟩
        | some w => ⟨.LEDGER_OK, some w⟩

end StateMigrationV10

/-- Custodian wallet statuses (spec section 3, `type::WalletStatus`). -/
inductive WalletStatus
  | NOT_CONNECTED
  | PENDING
  | VERIFIED
  | DISCONNECTED_VERIFIED
deriving DecidableEq, Repr

/-- The stored custodian wallet (spec section 3: custodian identifier is
fixed to one vendor here; status, address, access token, linking nonce). -/
structure ExternalWallet where
  status : WalletStatus
  token : String
  address : String
  oneTimeString : String
deriving DecidableEq, Repr

namespace Uphold

/-- Key lookup in the `{code, state}` callback argument map
(`base::flat_map` lookup). -/
def findArg : List (String × String) → String → Option String
  | [], _ => none
  | (k, v) :: rest, key => if k = key then some v else findArg rest key

/-- The custodian token endpoint's answer to the code-for-token exchange:
whether the HTTP exchange succeeded, and the `access_token` response field. -/
structure TokenExchangeResponse where
  httpOk : Bool
  accessToken : String
deriving DecidableEq, Repr

/-- External collaborators of one `WalletAuthorization` call: the stored
wallet as loaded at entry, the token-exchange response, the stored wallet as
re-loaded in the exchange callback, and the success of the final persistence
write. -/
structure AuthEnv where
  storedWallet : Option ExternalWallet
  exchange : TokenExchangeResponse
  reloadWallet : Option ExternalWallet
  persistOk : Bool
deriving Repr

/-- The observable outcome of `WalletAuthorization`: the result passed to the
callback, the stored wallet after the call, and whether the token exchange
round trip was performed. -/
structure AuthOutcome where
  result : LedgerResult
  wallet : Option ExternalWallet
  exchanged : Bool
deriving DecidableEq, Repr

/-- Modelled from the spec: the callback phase of the Custodian Wallet
Authorizer's `WalletAuthorization` (spec section 4.2, steps 5-8).  The
implementing source file (`uphold_authorization.cc`) is not in the source
tree; only its parameterized unit tests are.  Per those tests, the callback
re-loads the wallet and re-checks absence and `VERIFIED` status before
examining the exchange response; an empty access token fails; on success the
access token is stored and the status transitions to `PENDING`, reported
only if the persistence write succeeds. -/
def authorizeCallback (env : AuthEnv) : AuthOutcome :=
  match env.reloadWallet with
  | none => ⟨.LEDGER_ERROR, none, true⟩
  | some w =>
      if w.status = .VERIFIED then ⟨.LEDGER_ERROR, some w, true⟩
      else if env.exchange.httpOk = false then ⟨.LEDGER_ERROR, some w, true⟩
      else if env.exchange.accessToken = "" then ⟨.LEDGER_ERROR, some w, true⟩
      else if env.persistOk then
        ⟨.LEDGER_OK,
          some { w with token := env.exchange.accessToken, status := .PENDING },
          true⟩
      else ⟨.LEDGER_ERROR, some w, true⟩

/-- Modelled from the spec: the Custodian Wallet Authorizer's
`WalletAuthorization` entry point (spec section 4.2).  The implementing
source file (`uphold_authorization.cc`) is not in the source tree; only its
parameterized unit tests are.  Steps follow spec section 4.2: load the
wallet and fail if absent; fail if already `VERIFIED`; fail on an empty
`code` or `state`; fail if `state` does not match the stored linking nonce;
then exchange the code for an access token (`authorizeCallback`).  The
custodian-reported `error_description` callback parameter is checked before
the emptiness checks, with the ineligibility message mapped to `NOT_FOUND`,
as fixed by the unit-test table. -/
def WalletAuthorization (env : AuthEnv) (args : List (String × String)) :
    AuthOutcome :=
  match env.storedWallet with
  | none => ⟨.LEDGER_ERROR, none, false⟩
  | some w =>
      if w.status = .VERIFIED then ⟨.LEDGER_ERROR, some w, false⟩
      else
        match findArg args "error_description" with
        | some d =>
            if d = "User does not meet minimum requirements" then
              ⟨.NOT_FOUND, some w, false⟩
            else ⟨.LEDGER_ERROR, some w, false⟩
        | none =>
            if (findArg args "code").getD "" = "" then
              ⟨.LEDGER_ERROR, some w, false⟩
            else if (findArg args "state").getD "" = "" then
              ⟨.LEDGER_ERROR, some w, false⟩
            else if (findArg args "state").getD "" ≠ w.oneTimeString then
              ⟨.LEDGER_ERROR, some w, false⟩
            else authorizeCallback env

end Uphold

/-- `WalletInfo` of the ads token refiller. -/
structure WalletInfo where
  paymentId : String
  secretKey : String
deriving DecidableEq, Repr

/-- Modelled from the spec: the state of the Refill Coordinator
(spec sections 4.1 and 5; only the class header
`refill_unblinded_tokens.h` is in the source tree, which fixes the
`is_processing_` single-flight flag, the held wallet, nonce and in-flight
token lists).  `requestsIssued` counts network requests started, and the
state deliberately holds no queue of deferred callers, mirroring the header.
`targetReserve` and `unspentCount` are the externally supplied reserve
parameters of spec section 4.1 step 1. -/
structure RefillUnblindedTokens where
  isProcessing : Bool
  wallet : WalletInfo
  nonce : String
  tokens : List String
  blindedTokens : List String
  requestsIssued : Nat
deriving DecidableEq, Repr

namespace RefillUnblindedTokens

/-- Modelled from the spec: `RefillUnblindedTokens::MaybeRefill`
(spec section 4.1; the implementing `.cc` is not in the source tree).  A
call while a cycle is in flight is silently dropped; a call with no tokens
needed returns without network activity; otherwise a cycle starts: the
in-progress flag is set, the wallet is captured, and the first network
request of the cycle is issued. -/
def MaybeRefill (targetReserve unspentCount : Nat)
    (st : RefillUnblindedTokens) (w : WalletInfo) : RefillUnblindedTokens :=
  if st.isProcessing then st
  else if targetReserve ≤ unspentCount then st
  else
    { st with
      isProcessing := true
      wallet := w
      requestsIssued := st.requestsIssued + 1 }

end RefillUnblindedTokens

namespace LedgerDatabase

/-- Claim C1: for every transaction submitted to `RunTransaction` in which
some command fails, the store rolls back (the durable database state after
the call equals the state before the call), no later commands in the
transaction are executed (the outcome equals that of the transaction
truncated at the failing command), and the returned status distinguishes the
failure kind: `INITIALIZATION_ERROR` when opening fails, `TRANSACTION_ERROR`
when transaction begin or commit fails, and the failing command's own status
for a per-command failure. -/
theorem runTransaction_failure_semantics (env : RunEnv) (st : LedgerDatabase)
    (t : DBTransaction) :
    (st.isOpen = false → env.openOk = false →
      RunTransaction env st t = ⟨.INITIALIZATION_ERROR, st, none, 0⟩) ∧
    (st.isOpen = true → soleClose t = false →
      (env.beginOk = false →
        RunTransaction env st t = ⟨.TRANSACTION_ERROR, st, none, 0⟩) ∧
      (env.beginOk = true →
        ((runCommands env t.version t.compatibleVersion t.commands st none
            false).1 ≠ .RESPONSE_OK →
          RunTransaction env st t =
            ⟨(runCommands env t.version t.compatibleVersion t.commands st none
                false).1,
             { (runCommands env t.version t.compatibleVersion t.commands st
                 none false).2.1 with data := st.data },
             (runCommands env t.version t.compatibleVersion t.commands st none
               false).2.2.1,
             0⟩) ∧
        ((runCommands env t.version t.compatibleVersion t.commands st none
            false).1 = .RESPONSE_OK → env.commitOk = false →
          RunTransaction env st t =
            ⟨.TRANSACTION_ERROR,
             { (runCommands env t.version t.compatibleVersion t.commands st
                 none false).2.1 with data := st.data },
             (runCommands env t.version t.compatibleVersion t.commands st none
               false).2.2.1,
             0⟩) ∧
        (∀ pre c suf, t.commands = pre ++ c :: suf →
          soleClose ⟨t.version, t.compatibleVersion, pre ++ [c]⟩ = false →
          (runCommands env t.version t.compatibleVersion pre st none
            false).1 = .RESPONSE_OK →
          (applyCommand env t.version t.compatibleVersion c
            (runCommands env t.version t.compatibleVersion pre st none
              false).2.1
            (runCommands env t.version t.compatibleVersion pre st none
              false).2.2.1).1 ≠ .RESPONSE_OK →
          RunTransaction env st t =
            RunTransaction env st
              ⟨t.version, t.compatibleVersion, pre ++ [c]⟩))) := by
  constructor
  · intro h1 h2
    rw [RunTransaction]
    simp [h1, h2]
  · intro hopen hsole
    constructor
    · intro hb
      rw [RunTransaction]
      rw [set_open_self st hopen]
      simp [hopen, hsole, hb]
    · intro hb
      refine ⟨?_, ?_, ?_⟩
      · intro hfail
        rw [runTransaction_loop env st t hopen hsole hb, if_neg hfail]
      · intro hok hcommit
        rw [runTransaction_loop env st t hopen hsole hb, if_pos hok,
          if_neg (by simp [hcommit])]
      · intro pre c suf hcmds hsole2 hpre hcfail
        have key : runCommands env t.version t.compatibleVersion t.commands st
            none false =
            runCommands env t.version t.compatibleVersion (pre ++ [c]) st none
              false := by
          rw [hcmds, runCommands_append, runCommands_append, if_pos hpre,
            if_pos hpre]
          simp only [runCommands]
          rw [if_neg hcfail, if_neg hcfail]
        rw [runTransaction_loop env st t hopen hsole hb,
          runTransaction_loop env st ⟨t.version, t.compatibleVersion, pre ++ [c]⟩
            hopen hsole2 hb]
        rw [key]

def c1Env : RunEnv := ⟨true, true, true, true, true⟩

def c1St : LedgerDatabase := ⟨true, ⟨["r"], true, 4, 4⟩, true⟩

def c1Txn : DBTransaction :=
  ⟨4, 4, [{ type := .RUN, effect := fun l => "x" :: l },
          { type := .RUN, ok := false },
          { type := .RUN, effect := fun l => "y" :: l }]⟩

/-- Witness for C1: a `[RUN ok, RUN fails, RUN ok]` transaction reports the
failing command's `COMMAND_ERROR`, restores the pre-transaction data, and
behaves exactly like the transaction truncated at the failing command. -/
theorem runTransaction_failure_semantics_witness :
    RunTransaction c1Env c1St c1Txn =
      ⟨.COMMAND_ERROR,
       { (runCommands c1Env 4 4 c1Txn.commands c1St none false).2.1 with
           data := c1St.data },
       (runCommands c1Env 4 4 c1Txn.commands c1St none false).2.2.1, 0⟩ ∧
    RunTransaction c1Env c1St c1Txn =
      RunTransaction c1Env c1St
        ⟨4, 4, [{ type := .RUN, effect := fun l => "x" :: l },
                { type := .RUN, ok := false }]⟩ := by
  constructor
  · exact ((runTransaction_failure_semantics c1Env c1St c1Txn).2 rfl rfl).2
      rfl |>.1 (by decide)
  · exact ((runTransaction_failure_semantics c1Env c1St c1Txn).2 rfl rfl).2
      rfl |>.2.2 [{ type := .RUN, effect := fun l => "x" :: l }]
      { type := .RUN, ok := false }
      [{ type := .RUN, effect := fun l => "y" :: l }] rfl rfl (by decide)
      (by decide)

/-- Claim C6: a `VACUUM` command is not run when encountered — the command
loop only records a flag and leaves the state unchanged; the vacuum statement
is executed exactly once, only after the transaction has successfully
committed (zero times on any failure); and a failing vacuum statement is only
logged: it affects neither the committed state nor the `RESPONSE_OK`
status. -/
theorem vacuum_deferred_best_effort (env : RunEnv) (st : LedgerDatabase)
    (t : DBTransaction) :
    (∀ c st0 res, c.type = .VACUUM →
      applyCommand env t.version t.compatibleVersion c st0 res =
        (.RESPONSE_OK, st0, res, true)) ∧
    (st.isOpen = true → soleClose t = false → env.beginOk = true →
      ((runCommands env t.version t.compatibleVersion t.commands st none
          false).1 = .RESPONSE_OK → env.commitOk = true →
        (RunTransaction env st t).status = .RESPONSE_OK ∧
        (RunTransaction env st t).state =
          (runCommands env t.version t.compatibleVersion t.commands st none
            false).2.1 ∧
        ((t.commands.any fun c => c.type == .VACUUM) = true →
          (RunTransaction env st t).vacuumRuns = 1) ∧
        ((t.commands.any fun c => c.type == .VACUUM) = false →
          (RunTransaction env st t).vacuumRuns = 0)) ∧
      ((runCommands env t.version t.compatibleVersion t.commands st none
          false).1 ≠ .RESPONSE_OK ∨ env.commitOk = false →
        (RunTransaction env st t).vacuumRuns = 0)) ∧
    (∀ b, RunTransaction { env with vacuumOk := b } st t =
      RunTransaction env st t) := by
  refine ⟨?_, ?_, ?_⟩
  · intro c st0 res hc
    obtain ⟨ty, ok, eff, recs⟩ := c
    cases hc
    rfl
  · intro hopen hsole hb
    constructor
    · intro hok hcommit
      rw [runTransaction_loop env st t hopen hsole hb, if_pos hok,
        if_pos hcommit]
      refine ⟨rfl, rfl, ?_, ?_⟩ <;> intro hany <;>
        simp [runCommands_vacuum_flag env t.version t.compatibleVersion
          t.commands st none false hok, hany]
    · intro hfail
      rcases hfail with hfail | hfail
      · rw [runTransaction_loop env st t hopen hsole hb, if_neg hfail]
      · rw [runTransaction_loop env st t hopen hsole hb]
        split
        · rw [if_neg (by simp [hfail])]
        · rfl
  · intro b
    simp only [RunTransaction, runCommands_vacuumOk_irrel]

def c6Env : RunEnv := ⟨true, true, true, true, false⟩

def c6St : LedgerDatabase := ⟨true, ⟨["r"], true, 4, 4⟩, true⟩

def c6Txn : DBTransaction :=
  ⟨4, 4, [{ type := .RUN, effect := fun l => "x" :: l }, { type := .VACUUM }]⟩

/-- Witness for C6: a committed `[RUN, VACUUM]` transaction (whose vacuum
statement fails, `vacuumOk = false`) keeps its committed effects, reports
`RESPONSE_OK`, and ran the vacuum statement exactly once. -/
theorem vacuum_deferred_best_effort_witness :
    (RunTransaction c6Env c6St c6Txn).status = .RESPONSE_OK ∧
    (RunTransaction c6Env c6St c6Txn).state =
      (runCommands c6Env 4 4 c6Txn.commands c6St none false).2.1 ∧
    (RunTransaction c6Env c6St c6Txn).vacuumRuns = 1 := by
  have h := ((vacuum_deferred_best_effort c6Env c6St c6Txn).2.1 rfl rfl
    rfl).1 (by decide) rfl
  exact ⟨h.1, h.2.1, h.2.2.1 (by decide)⟩

def c7Env : RunEnv := ⟨true, true, true, true, true⟩

def c7St : LedgerDatabase := ⟨true, ⟨["row"], false, 0, 0⟩, false⟩

def c7Txn : DBTransaction := ⟨1, 1, [{ type := .VACUUM }]⟩

/-- Counterexample for C7: a transaction consisting of one `VACUUM` command
runs to `RESPONSE_OK` on a store whose `initialized_` flag is unset, so a
command type other than `INITIALIZE` and `CLOSE` does succeed on an
uninitialized store. -/
theorem vacuum_on_uninitialized_succeeds_cex :
    c7St.initialized = false ∧
    c7Txn.commands.map (fun c => c.type) = [.VACUUM] ∧
    RunTransaction c7Env c7St c7Txn = ⟨.RESPONSE_OK, c7St, none, 1⟩ := by
  decide

/-- Claim C7 (amended): every `READ`, `EXECUTE`, `RUN` or `MIGRATE` command
executed while the store's `initialized_` flag is unset fails with
`INITIALIZATION_ERROR` and performs no database work; `VACUUM` is the one
other command type that succeeds on an uninitialized store (it is recorded
as a flag and needs no initialized schema). -/
theorem uninitialized_commands_fail (env : RunEnv) (v cv : Int)
    (c : DBCommand) (st : LedgerDatabase) (res : Option DBResult)
    (hinit : st.initialized = false)
    (ht : c.type = .READ ∨ c.type = .EXECUTE ∨ c.type = .RUN ∨
      c.type = .MIGRATE) :
    applyCommand env v cv c st res = (.INITIALIZATION_ERROR, st, res, false) := by
  obtain ⟨ty, ok, eff, recs⟩ := c
  rcases ht with h | h | h | h <;> cases h <;>
    simp [applyCommand, ReadDB, ExecuteDB, RunDB, MigrateDB, hinit]

/-- Witness for C7 (amended): a `READ` command on an uninitialized store
fails with `INITIALIZATION_ERROR` and changes nothing. -/
theorem uninitialized_commands_fail_witness :
    applyCommand c7Env 1 1 { type := .READ } c7St none =
      (.INITIALIZATION_ERROR, c7St, none, false) :=
  uninitialized_commands_fail c7Env 1 1 { type := .READ } c7St none rfl
    (Or.inl rfl)

def c8Env : RunEnv := ⟨true, true, true, true, true⟩

def c8St : LedgerDatabase := ⟨true, ⟨[], true, 5, 5⟩, true⟩

def c8Txn : DBTransaction := ⟨3, 3, [{ type := .MIGRATE }]⟩

/-- Counterexample for C8: on a store whose stored schema version is 5, a
committed transaction with a `MIGRATE` command and version 3 leaves the
stored schema version at 3 — strictly smaller than a value it previously
held — so the stored versions are not monotonically non-decreasing. -/
theorem migrate_version_decrease_cex :
    c8St.data.metaVersion = 5 ∧
    (RunTransaction c8Env c8St c8Txn).status = .RESPONSE_OK ∧
    (RunTransaction c8Env c8St c8Txn).state.data.metaVersion = 3 ∧
    (RunTransaction c8Env c8St c8Txn).state.data.metaVersion <
      c8St.data.metaVersion := by
  refine ⟨rfl, rfl, rfl, ?_⟩
  decide

/-- Claim C8 (amended): a committed `MIGRATE` command sets the stored schema
version and compatible version to exactly the transaction's supplied values,
unconditionally — it never compares them with the previously stored values,
so the stored versions are non-decreasing only when the sequence of supplied
versions is. -/
theorem migrate_sets_versions (env : RunEnv) (st : LedgerDatabase)
    (t : DBTransaction) (c : DBCommand) (hopen : st.isOpen = true)
    (hinit : st.initialized = true) (hb : env.beginOk = true)
    (hcommit : env.commitOk = true) (hc : c.type = .MIGRATE)
    (hcmds : t.commands = [c]) :
    RunTransaction env st t =
      ⟨.RESPONSE_OK,
       { st with data := { st.data with
           metaVersion := t.version
           metaCompatibleVersion := t.compatibleVersion } },
       none, 0⟩ := by
  have hsole : soleClose t = false := by
    obtain ⟨ty, ok, eff, recs⟩ := c
    cases hc
    simp [soleClose, hcmds]
  rw [runTransaction_loop env st t hopen hsole hb, hcmds]
  obtain ⟨ty, ok, eff, recs⟩ := c
  cases hc
  simp [runCommands, applyCommand, MigrateDB, hinit, hcommit]

def c8WSt : LedgerDatabase := ⟨true, ⟨[], true, 5, 5⟩, true⟩

def c8WTxn : DBTransaction := ⟨9, 8, [{ type := .MIGRATE }]⟩

/-- Witness for C8 (amended): migrating from stored version 5 to supplied
version 9 (compatible version 8) stores exactly 9 and 8. -/
theorem migrate_sets_versions_witness :
    RunTransaction c8Env c8WSt c8WTxn =
      ⟨.RESPONSE_OK,
       { c8WSt with data := { c8WSt.data with
           metaVersion := 9
           metaCompatibleVersion := 8 } },
       none, 0⟩ :=
  migrate_sets_versions c8Env c8WSt c8WTxn { type := .MIGRATE } rfl rfl rfl
    rfl rfl rfl

def c10Env : RunEnv := ⟨true, true, true, true, true⟩

def c10St : LedgerDatabase := ⟨true, ⟨["k"], false, 0, 0⟩, false⟩

def c10Txn : DBTransaction :=
  ⟨1, 1, [{ type := .MIGRATE }, { type := .CLOSE }]⟩

/-- Counterexample for C10: the transaction `[MIGRATE, CLOSE]` contains a
`CLOSE` together with another command, yet `RunTransaction` (on an
uninitialized store) returns `INITIALIZATION_ERROR`, not `COMMAND_ERROR` —
the earlier command fails before the `CLOSE` is ever evaluated. -/
theorem close_with_other_commands_cex :
    c10Txn.commands.length = 2 ∧
    c10Txn.commands.map (fun c => c.type) = [.MIGRATE, .CLOSE] ∧
    (RunTransaction c10Env c10St c10Txn).status = .INITIALIZATION_ERROR ∧
    (RunTransaction c10Env c10St c10Txn).status ≠ .COMMAND_ERROR := by
  refine ⟨rfl, rfl, rfl, ?_⟩
  decide

/-- Claim C10 (amended): a transaction containing a `CLOSE` together with at
least one other command never closes the connection and never resets a set
`initialized_` flag; when the `CLOSE` command is actually reached (the
transaction began and every earlier command succeeded) it evaluates to
`COMMAND_ERROR`, the transaction is rolled back, `COMMAND_ERROR` is
returned, and no vacuum runs; only a transaction consisting of exactly one
`CLOSE` command closes the connection and resets the initialized flag. -/
theorem close_requires_sole_command (env : RunEnv) (st : LedgerDatabase)
    (t : DBTransaction) :
    (st.isOpen = true → soleClose t = false →
      (RunTransaction env st t).state.isOpen = true ∧
      (st.initialized = true →
        (RunTransaction env st t).state.initialized = true) ∧
      (∀ pre c suf, t.commands = pre ++ c :: suf → c.type = .CLOSE →
        env.beginOk = true →
        (runCommands env t.version t.compatibleVersion pre st none
          false).1 = .RESPONSE_OK →
        (RunTransaction env st t).status = .COMMAND_ERROR ∧
        (RunTransaction env st t).state.data = st.data ∧
        (RunTransaction env st t).vacuumRuns = 0)) ∧
    (∀ c, t.commands = [c] → c.type = .CLOSE → st.isOpen = true →
      RunTransaction env st t =
        ⟨.RESPONSE_OK, { st with isOpen := false, initialized := false },
         none, 0⟩) := by
  constructor
  · intro hopen hsole
    by_cases hb : env.beginOk = true
    · have hloop := runTransaction_loop env st t hopen hsole hb
      refine ⟨?_, ?_, ?_⟩
      · rw [hloop]
        split
        · split
          · exact runCommands_isOpen env t.version t.compatibleVersion
              t.commands st none false ▸ hopen
          · exact runCommands_isOpen env t.version t.compatibleVersion
              t.commands st none false ▸ hopen
        · exact runCommands_isOpen env t.version t.compatibleVersion
            t.commands st none false ▸ hopen
      · intro hinit
        rw [hloop]
        split
        · split
          · exact runCommands_initialized_mono env t.version
              t.compatibleVersion t.commands st none false hinit
          · exact runCommands_initialized_mono env t.version
              t.compatibleVersion t.commands st none false hinit
        · exact runCommands_initialized_mono env t.version t.compatibleVersion
            t.commands st none false hinit
      · intro pre c suf hcmds hc _ hpre
        have hfold : (runCommands env t.version t.compatibleVersion t.commands
            st none false).1 = .COMMAND_ERROR := by
          rw [hcmds, runCommands_append, if_pos hpre]
          simp only [runCommands,
            applyCommand_close env t.version t.compatibleVersion c _ _ hc]
          rfl
        rw [hloop, if_neg (by simp [hfold])]
        exact ⟨hfold, rfl, rfl⟩
    · have hb2 : env.beginOk = false := by
        cases hbe : env.beginOk
        · rfl
        · exact absurd hbe hb
      have : RunTransaction env st t = ⟨.TRANSACTION_ERROR, st, none, 0⟩ := by
        rw [RunTransaction, set_open_self st hopen]
        simp [hopen, hsole, hb2]
      refine ⟨?_, ?_, ?_⟩
      · rw [this]; exact hopen
      · intro hinit; rw [this]; exact hinit
      · intro pre c suf _ _ hbt
        exact absurd hbt hb
  · intro c hcmds hc hopen
    have hsole : soleClose t = true := by
      obtain ⟨ty, ok, eff, recs⟩ := c
      cases hc
      simp [soleClose, hcmds]
    rw [RunTransaction, set_open_self st hopen]
    simp [hopen, hsole, CloseDatabase]

def c10WSt : LedgerDatabase := ⟨true, ⟨["k"], true, 2, 2⟩, true⟩

def c10WTxn : DBTransaction :=
  ⟨2, 2, [{ type := .RUN, effect := fun l => "x" :: l }, { type := .CLOSE }]⟩

def c10WSoleTxn : DBTransaction := ⟨2, 2, [{ type := .CLOSE }]⟩

/-- Witness for C10 (amended): `[RUN ok, CLOSE]` reaches the `CLOSE`, which
evaluates to `COMMAND_ERROR`; the transaction rolls back and the connection
stays open; a sole-`CLOSE` transaction closes the connection and resets the
initialized flag. -/
theorem close_requires_sole_command_witness :
    (RunTransaction c10Env c10WSt c10WTxn).state.isOpen = true ∧
    (RunTransaction c10Env c10WSt c10WTxn).status = .COMMAND_ERROR ∧
    (RunTransaction c10Env c10WSt c10WTxn).state.data = c10WSt.data ∧
    RunTransaction c10Env c10WSt c10WSoleTxn =
      ⟨.RESPONSE_OK, { c10WSt with isOpen := false, initialized := false },
       none, 0⟩ := by
  have h1 := (close_requires_sole_command c10Env c10WSt c10WTxn).1 rfl rfl
  have h2 := h1.2.2 [{ type := .RUN, effect := fun l => "x" :: l }]
    { type := .CLOSE } [] rfl rfl rfl (by decide)
  have h3 := (close_requires_sole_command c10Env c10WSt c10WSoleTxn).2
    { type := .CLOSE } rfl rfl rfl
  exact ⟨h1.1, h2.1, h2.2.1, h3⟩

end LedgerDatabase

namespace StateMigrationV10

/-- Claim C5: `StateMigrationV10::Migrate` resolves its callback with
`LEDGER_OK` for every input — empty legacy preference, undecryptable blob,
unparsable JSON, and even a failing persistence write (the migration outcome
does not depend on the write's success at all); it never resolves with an
error result. -/
theorem migrate_always_ok (env : MigrationEnv) :
    (Migrate env).result = .LEDGER_OK ∧
    (∀ b, Migrate { env with saveSuccess := b } = Migrate env) := by
  constructor
  · rw [Migrate]
    split
    · rfl
    · split
      · rfl
      · split <;> rfl
  · intro b
    cases env
    rfl

end StateMigrationV10

namespace Uphold

theorem exchanged_eq_callback (env : AuthEnv) (args : List (String × String))
    (hex : (WalletAuthorization env args).exchanged = true) :
    WalletAuthorization env args = authorizeCallback env := by
  cases hsw : env.storedWallet with
  | none => simp [WalletAuthorization, hsw] at hex
  | some w1 =>
      by_cases hv1 : w1.status = .VERIFIED
      · simp [WalletAuthorization, hsw, hv1] at hex
      · cases hd : findArg args "error_description" with
        | some d =>
            by_cases hdm : d = "User does not meet minimum requirements" <;>
              simp [WalletAuthorization, hsw, hv1, hd, hdm] at hex
        | none =>
            by_cases hc : (findArg args "code").getD "" = ""
            · simp [WalletAuthorization, hsw, hv1, hd, hc] at hex
            · by_cases hs : (findArg args "state").getD "" = ""
              · simp [WalletAuthorization, hsw, hv1, hd, hc, hs] at hex
              · by_cases hm : (findArg args "state").getD "" = w1.oneTimeString
                · have hns : w1.oneTimeString ≠ "" := by
                    rw [hm] at hs
                    exact hs
                  simp [WalletAuthorization, hsw, hv1, hd, hc, hs, hm, hns]
                · simp [WalletAuthorization, hsw, hv1, hd, hc, hs, hm] at hex

/-- Claim C2: a stored wallet in `VERIFIED` status makes every
`WalletAuthorization` call fail with `LEDGER_ERROR` without the token
exchange and with the stored wallet unchanged (still `VERIFIED`); and even
when the wallet turns `VERIFIED` between the entry check and the exchange
callback, the flow fails and never writes a non-`VERIFIED` wallet over it. -/
theorem verified_wallet_never_reauthorized (env : AuthEnv)
    (args : List (String × String)) :
    (∀ w, env.storedWallet = some w → w.status = .VERIFIED →
      WalletAuthorization env args = ⟨.LEDGER_ERROR, some w, false⟩) ∧
    (∀ w, env.reloadWallet = some w → w.status = .VERIFIED →
      (WalletAuthorization env args).exchanged = true →
      (WalletAuthorization env args).result = .LEDGER_ERROR ∧
      (WalletAuthorization env args).wallet = some w) := by
  constructor
  · intro w hw hv
    simp [WalletAuthorization, hw, hv]
  · intro w hw hv hex
    rw [exchanged_eq_callback env args hex]
    simp [authorizeCallback, hw, hv]

/-- Witness for C2: a `VERIFIED` stored wallet makes the call fail and stay
unchanged, and a reload that turns up `VERIFIED` in the callback phase also
fails without overwriting it. -/
theorem verified_wallet_never_reauthorized_witness :
    WalletAuthorization
      ⟨some ⟨.VERIFIED, "t", "a", "n"⟩, ⟨true, "x"⟩, none, true⟩ [] =
      ⟨.LEDGER_ERROR, some ⟨.VERIFIED, "t", "a", "n"⟩, false⟩ ∧
    (WalletAuthorization
      ⟨some ⟨.NOT_CONNECTED, "", "", "n"⟩, ⟨true, "x"⟩,
       some ⟨.VERIFIED, "t", "a", "n"⟩, true⟩
      [("code", "c"), ("state", "n")]).result = .LEDGER_ERROR ∧
    (WalletAuthorization
      ⟨some ⟨.NOT_CONNECTED, "", "", "n"⟩, ⟨true, "x"⟩,
       some ⟨.VERIFIED, "t", "a", "n"⟩, true⟩
      [("code", "c"), ("state", "n")]).wallet =
      some ⟨.VERIFIED, "t", "a", "n"⟩ := by
  refine ⟨?_, ?_⟩
  · exact (verified_wallet_never_reauthorized
      ⟨some ⟨.VERIFIED, "t", "a", "n"⟩, ⟨true, "x"⟩, none, true⟩ []).1
      ⟨.VERIFIED, "t", "a", "n"⟩ rfl rfl
  · exact (verified_wallet_never_reauthorized
      ⟨some ⟨.NOT_CONNECTED, "", "", "n"⟩, ⟨true, "x"⟩,
       some ⟨.VERIFIED, "t", "a", "n"⟩, true⟩
      [("code", "c"), ("state", "n")]).2
      ⟨.VERIFIED, "t", "a", "n"⟩ rfl rfl (by decide)

/-- Claim C3: whenever the stored wallet's linking nonce differs from the
supplied `state` and the supplied `code` is non-empty,
`WalletAuthorization({code, state})` fails with `LEDGER_ERROR`, performs no
token exchange, and leaves the stored wallet unchanged. -/
theorem one_time_string_mismatch_fails (env : AuthEnv) (w : ExternalWallet)
    (c s : String) (hw : env.storedWallet = some w) (hc : c ≠ "")
    (hs : s ≠ w.oneTimeString) :
    WalletAuthorization env [("code", c), ("state", s)] =
      ⟨.LEDGER_ERROR, some w, false⟩ := by
  have hd : findArg [("code", c), ("state", s)] "error_description" = none := by
    simp [findArg]
  have hcode : findArg [("code", c), ("state", s)] "code" = some c := by
    simp [findArg]
  have hstate : findArg [("code", c), ("state", s)] "state" = some s := by
    simp [findArg]
  by_cases hv : w.status = .VERIFIED
  · simp [WalletAuthorization, hw, hv]
  · rcases eq_or_ne s "" with hse | hse
    · subst hse
      simp [WalletAuthorization, hw, hv, findArg, hc]
    · simp [WalletAuthorization, hw, hv, hd, hcode, hstate, hc, hse, hs]

/-- Witness for C3: with stored nonce `"n1"`, input
`{code:"c1", state:"wrong"}` fails with `LEDGER_ERROR`, no exchange, wallet
unchanged. -/
theorem one_time_string_mismatch_fails_witness :
    WalletAuthorization
      ⟨some ⟨.NOT_CONNECTED, "", "", "n1"⟩, ⟨true, "t1"⟩,
       some ⟨.NOT_CONNECTED, "", "", "n1"⟩, true⟩
      [("code", "c1"), ("state", "wrong")] =
      ⟨.LEDGER_ERROR, some ⟨.NOT_CONNECTED, "", "", "n1"⟩, false⟩ :=
  one_time_string_mismatch_fails
    ⟨some ⟨.NOT_CONNECTED, "", "", "n1"⟩, ⟨true, "t1"⟩,
     some ⟨.NOT_CONNECTED, "", "", "n1"⟩, true⟩
    ⟨.NOT_CONNECTED, "", "", "n1"⟩ "c1" "wrong" rfl (by decide) (by decide)

/-- Claim C9: when the custodian reports `error_description` equal to
"User does not meet minimum requirements", `WalletAuthorization` resolves
with the distinct `NOT_FOUND` result; any other reported `error_description`
yields the generic `LEDGER_ERROR`; in both cases the stored wallet is left
unchanged. -/
theorem eligibility_distinct_result (env : AuthEnv)
    (args : List (String × String)) (w : ExternalWallet) (d : String)
    (hw : env.storedWallet = some w) (hv : w.status ≠ .VERIFIED)
    (hd : findArg args "error_description" = some d) :
    (d = "User does not meet minimum requirements" →
      WalletAuthorization env args = ⟨.NOT_FOUND, some w, false⟩) ∧
    (d ≠ "User does not meet minimum requirements" →
      WalletAuthorization env args = ⟨.LEDGER_ERROR, some w, false⟩) := by
  constructor <;> intro hdm <;> simp [WalletAuthorization, hw, hv, hd, hdm]

/-- Witness for C9: the ineligibility description maps to `NOT_FOUND`; a
different description maps to `LEDGER_ERROR`; the wallet stays unchanged. -/
theorem eligibility_distinct_result_witness :
    WalletAuthorization
      ⟨some ⟨.NOT_CONNECTED, "", "", "n"⟩, ⟨false, ""⟩, none, false⟩
      [("error_description", "User does not meet minimum requirements")] =
      ⟨.NOT_FOUND, some ⟨.NOT_CONNECTED, "", "", "n"⟩, false⟩ ∧
    WalletAuthorization
      ⟨some ⟨.NOT_CONNECTED, "", "", "n"⟩, ⟨false, ""⟩, none, false⟩
      [("error_description", "some other reason")] =
      ⟨.LEDGER_ERROR, some ⟨.NOT_CONNECTED, "", "", "n"⟩, false⟩ := by
  constructor
  · exact (eligibility_distinct_result
      ⟨some ⟨.NOT_CONNECTED, "", "", "n"⟩, ⟨false, ""⟩, none, false⟩
      [("error_description", "User does not meet minimum requirements")]
      ⟨.NOT_CONNECTED, "", "", "n"⟩ "User does not meet minimum requirements"
      rfl (by decide) (by decide)).1 rfl
  · exact (eligibility_distinct_result
      ⟨some ⟨.NOT_CONNECTED, "", "", "n"⟩, ⟨false, ""⟩, none, false⟩
      [("error_description", "some other reason")]
      ⟨.NOT_CONNECTED, "", "", "n"⟩ "some other reason"
      rfl (by decide) (by decide)).2 (by decide)

end Uphold

namespace RefillUnblindedTokens

/-- Claim C4: at most one refill cycle is in flight — while the
`is_processing_` flag is set, a second `MaybeRefill` call returns the state
completely unchanged: no network request is issued, nothing is mutated, and
(the state holding no queue) nothing is queued for later execution. -/
theorem maybeRefill_single_flight (targetReserve unspentCount : Nat)
    (st : RefillUnblindedTokens) (w : WalletInfo)
    (h : st.isProcessing = true) :
    MaybeRefill targetReserve unspentCount st w = st := by
  simp [MaybeRefill, h]

/-- Witness for C4: a call during an outstanding cycle leaves the state (and
its request counter) untouched. -/
theorem maybeRefill_single_flight_witness :
    MaybeRefill 50 0 ⟨true, ⟨"pid", "sk"⟩, "nonce", ["t"], ["b"], 1⟩
      ⟨"pid2", "sk2"⟩ = ⟨true, ⟨"pid", "sk"⟩, "nonce", ["t"], ["b"], 1⟩ :=
  maybeRefill_single_flight 50 0
    ⟨true, ⟨"pid", "sk"⟩, "nonce", ["t"], ["b"], 1⟩ ⟨"pid2", "sk2"⟩ rfl

end RefillUnblindedTokens
